import Mathlib

/-!
Shallow embedding of the GPoetr-3 poem API (`app.py`, `config.py`).

The route handlers of `app.py` are translated into pure Lean functions over
an explicit database state.  The persistence layer (`models.py`) is not part
of the sources; the `Poem` and `Tag` entities, their many-to-many
relationship and the `format` serializer are modelled from the spec
(sections 3 and 4.2).  Database commits can fail for reasons outside the
program, so every mutating handler takes a `commitOk` flag standing for the
oracle "the commit raised no exception"; an exception raised while staging
is modelled by `Option` inside the staging function.
-/

/-- Modelled from the spec: `models.py` is not among the sources.  A Tag row
has a system-assigned integer identifier and a name (section 3). -/
structure Tag where
  id : Nat
  name : String
deriving DecidableEq, Repr

/-- Modelled from the spec: `models.py` is not among the sources.  A Poem row
has a system-assigned integer identifier, a name, a numeric rating and a
many-to-many tag relationship, held here as the list of associated Tag rows
(section 3). -/
structure Poem where
  id : Nat
  name : String
  rating : Int
  tags : List Tag
deriving DecidableEq, Repr

/-- The database state: the Poem rows (each carrying its associations), the
Tag rows, and the next free Tag identifier used when a brand-new Tag row is
constructed. -/
structure DB where
  poems : List Poem
  tagRows : List Tag
  nextTagId : Nat
deriving DecidableEq, Repr

/-- A JSON value as it appears in the request bodies this API consumes:
a string, an integer, or a list of strings (tag names). -/
inductive JVal where
  | vStr (s : String)
  | vInt (n : Int)
  | vTags (names : List String)
deriving DecidableEq, Repr

/-- A JSON object body: key/value pairs in insertion order (Python dicts
preserve insertion order; keys are unique in an actual JSON object). -/
abbrev Body := List (String × JVal)

/-- The outcome of a route handler: a 200 payload or an aborted status. -/
inductive RouteResult (α : Type) where
  | ok (val : α)
  | err (status : Nat)
deriving DecidableEq, Repr

/-- The outcome of a mutating route handler: the database after the request,
whether `db.session.close()` ran (the `finally` block), and the response. -/
structure MutResult (α : Type) where
  db : DB
  sessionClosed : Bool
  result : RouteResult α
deriving DecidableEq, Repr

/-- Modelled from the spec: `Poem.format()` lives in `models.py`, absent from
the sources; section 4.2 requires identifier, name, rating and the list of
associated tag names. -/
structure FormattedPoem where
  id : Nat
  name : String
  rating : Int
  tagNames : List String
deriving DecidableEq, Repr

/-- Modelled from the spec: the `format` serializer of section 4.2. -/
def Poem.format (p : Poem) : FormattedPoem :=
  ⟨p.id, p.name, p.rating, p.tags.map Tag.name⟩

/-- `Poem.query.get(poem_id)`: the row whose primary key is `poem_id`. -/
def findPoem (db : DB) (pid : Nat) : Option Poem :=
  db.poems.find? (fun p => p.id == pid)

/-- `Tag.query.filter_by(name=tag_name).first()`. -/
def findTagByName (db : DB) (tagName : String) : Option Tag :=
  db.tagRows.find? (fun t => t.name == tagName)

/-- `poem in tag.poems` / `tag in poem.tags`: the association between a poem
and a Tag row (rows are identified by their primary key). -/
def tagAssociated (poem : Poem) (t : Tag) : Bool :=
  poem.tags.any (fun t2 => t2.id == t.id)

/-! ### GET routes -/

/-- `GET /poems` (`get_poems` in `app.py`): all poems, formatted. -/
def get_poems (db : DB) : RouteResult (List FormattedPoem) :=
  .ok (db.poems.map Poem.format)

/-- `GET /poems/<string:tag_name>` (`get_poems_by_tag`): the poems associated
with the tag of that exact name; 404 when no such Tag row exists. -/
def get_poems_by_tag (db : DB) (tagName : String) : RouteResult (List FormattedPoem) :=
  match findTagByName db tagName with
  | none => .err 404
  | some t => .ok ((db.poems.filter (fun p => tagAssociated p t)).map Poem.format)

/-- `GET /poems/<int:rating>` (`get_poems_by_id` in `app.py` — the source
function is named this way although it filters by rating): all poems with
exactly that rating; an empty result aborts 404. -/
def get_poems_by_id (db : DB) (rating : Int) : RouteResult (List FormattedPoem) :=
  let poems := db.poems.filter (fun p => p.rating == rating)
  if poems.isEmpty then .err 404
  else .ok (poems.map Poem.format)

/-- `GET /poem/<int:poem_id>` (`get_poem_by_id`). -/
def get_poem_by_id (db : DB) (pid : Nat) : RouteResult FormattedPoem :=
  match findPoem db pid with
  | none => .err 404
  | some p => .ok p.format

/-- `GET /poem/<string:poem_name>` (`get_poem_by_name`). -/
def get_poem_by_name (db : DB) (poemName : String) : RouteResult FormattedPoem :=
  match db.poems.find? (fun p => p.name == poemName) with
  | none => .err 404
  | some p => .ok p.format

/-! ### Route dispatch for the overloaded path segments

`/poems/<x>` and `/poem/<x>` each carry two rules, one with an `int`
converter and one with a `string` converter.  The web framework's `int`
converter matches exactly the non-empty all-digit segments and, by the
framework's documented rule ordering (number converters weigh less than the
generic string converter), takes precedence over the `string` rule whenever
both match. -/

/-- A path segment matched by the framework's `int` converter: non-empty and
all decimal digits. -/
def isIntSegment (s : String) : Bool :=
  !s.isEmpty && s.toList.all Char.isDigit

/-- The integer the `int` converter hands to the handler. -/
def digitsToNat (s : String) : Nat :=
  s.toList.foldl (fun acc c => acc * 10 + (c.toNat - 48)) 0

/-- Dispatch of `GET /poems/<x>` between `get_poems_by_id` (`int` rule) and
`get_poems_by_tag` (`string` rule). -/
def dispatchPoemsSegment (db : DB) (s : String) : RouteResult (List FormattedPoem) :=
  if isIntSegment s then get_poems_by_id db (digitsToNat s)
  else get_poems_by_tag db s

/-- Dispatch of `GET /poem/<x>` between `get_poem_by_id` (`int` rule) and
`get_poem_by_name` (`string` rule). -/
def dispatchPoemSegment (db : DB) (s : String) : RouteResult FormattedPoem :=
  if isIntSegment s then get_poem_by_id db (digitsToNat s)
  else get_poem_by_name db s

/-! ### POST /write-poem -/

/-- `POST /write-poem` (`post_write_poem`).  The guard in the source is
`if not ('topic' and 'adjectives') in r: abort(422)`; in Python,
`'topic' and 'adjectives'` evaluates to `'adjectives'` (both operands are
truthy, `and` yields the second), so the guard aborts exactly when the key
`"adjectives"` is absent from the body.  The generation logic is a stub that
signals success. -/
def post_write_poem (r : Body) : RouteResult Unit :=
  if !(r.any (fun kv => kv.1 == "adjectives")) then .err 422
  else .ok ()

/-! ### PATCH /poem/<int:poem_id> -/

/-- The allow-list of `patch_poem`. -/
def allowedKeys : List String := ["name", "rating", "tags"]

/-- `if not r or not all(map(lambda key: key in allowed_keys, r))`: the body
is absent, empty, or holds a key outside the allow-list. -/
def bodyRejected : Option Body → Bool
  | none => true
  | some kvs => kvs.isEmpty || !(kvs.all (fun kv => allowedKeys.contains kv.1))

/-- Python's `for tag_name in r['tags']`: iterating a list yields its
elements; iterating a string yields its one-character strings; iterating an
integer raises `TypeError` (modelled as `none`, caught by the handler's
`except`). -/
def stageTagNames : JVal → Option (List String)
  | .vTags ns => some ns
  | .vStr s => some (s.toList.map (fun c => String.mk [c]))
  | .vInt _ => none

/-- The brand-new Tag rows `Tag(name=tag_name)` constructed by a patch, one
per listed name, with fresh system-assigned identifiers. -/
def mkNewTags (start : Nat) : List String → List Tag
  | [] => []
  | n :: rest => ⟨start, n⟩ :: mkNewTags (start + 1) rest

/-- `setattr(poem, key, r[key])` for the remaining allowed keys.  A
value of the wrong shape is accepted by `setattr` and surfaces, if at all,
only when the commit is attempted (covered by the commit oracle), so the
poem is left unchanged here in that case. -/
def setattrPoem (p : Poem) (key : String) (v : JVal) : Poem :=
  if key == "name" then
    match v with
    | .vStr s => { p with name := s }
    | _ => p
  else if key == "rating" then
    match v with
    | .vInt n => { p with rating := n }
    | _ => p
  else p

/-- `for key in r: setattr(poem, key, r[key])`. -/
def applySetattrs (p : Poem) (kvs : Body) : Poem :=
  kvs.foldl (fun q kv => setattrPoem q kv.1 kv.2) p

/-- The body of `patch_poem`'s `try` block up to the commit: append a
brand-new Tag row per listed tag name, pop `tags` from the keys, then apply
the remaining keys by field replacement.  `none` models an exception raised
while staging. -/
def stagePatch (db : DB) (poem : Poem) (kvs : Body) : Option (DB × Poem) :=
  match kvs.find? (fun kv => kv.1 == "tags") with
  | some kv =>
    match stageTagNames kv.2 with
    | none => none
    | some names =>
      let newTags := mkNewTags db.nextTagId names
      let poem1 := { poem with tags := poem.tags ++ newTags }
      let db1 : DB := ⟨db.poems, db.tagRows ++ newTags, db.nextTagId + names.length⟩
      let rest := kvs.filter (fun kv2 => !(kv2.1 == "tags"))
      some (db1, applySetattrs poem1 rest)
  | none => some (db, applySetattrs poem kvs)

/-- `PATCH /poem/<int:poem_id>` (`patch_poem`).  Key validation runs first
(422), then the existence lookup (404); the staging and commit run inside
`try`, with rollback on any exception (500) and `db.session.close()` in
`finally`. -/
def patch_poem (db : DB) (pid : Nat) (r : Option Body) (commitOk : Bool) :
    MutResult FormattedPoem :=
  if bodyRejected r then ⟨db, false, .err 422⟩
  else
    match findPoem db pid with
    | none => ⟨db, false, .err 404⟩
    | some poem =>
      match stagePatch db poem (r.getD []) with
      | none => ⟨db, true, .err 500⟩
      | some (db1, poem2) =>
        if commitOk then
          ⟨⟨db1.poems.map (fun p => if p.id == pid then poem2 else p),
            db1.tagRows, db1.nextTagId⟩, true, .ok poem2.format⟩
        else ⟨db, true, .err 500⟩

/-! ### DELETE routes -/

/-- `DELETE /poem/<int:poem_id>` (`delete_poem`): absent poem aborts 404;
the delete and commit run inside `try` with rollback on failure (500) and
close in `finally`; on success the requested identifier is echoed back. -/
def delete_poem (db : DB) (pid : Nat) (commitOk : Bool) : MutResult Nat :=
  match findPoem db pid with
  | none => ⟨db, false, .err 404⟩
  | some _ =>
    if commitOk then
      ⟨⟨db.poems.eraseP (fun p => p.id == pid), db.tagRows, db.nextTagId⟩,
       true, .ok pid⟩
    else ⟨db, true, .err 500⟩

/-- `DELETE /poem/<int:poem_id>/<string:tag_name>` (`delete_tag_from_poem`):
both rows must exist and be associated, else 404; on success only the
association is removed (`poem.tags.remove(tag)`), the Tag row persists. -/
def delete_tag_from_poem (db : DB) (pid : Nat) (tagName : String) (commitOk : Bool) :
    MutResult FormattedPoem :=
  match findPoem db pid, findTagByName db tagName with
  | some poem, some t =>
    if !(tagAssociated poem t) then ⟨db, false, .err 404⟩
    else
      let poem2 := { poem with tags := poem.tags.eraseP (fun t2 => t2.id == t.id) }
      if commitOk then
        ⟨⟨db.poems.map (fun p => if p.id == pid then poem2 else p),
          db.tagRows, db.nextTagId⟩, true, .ok poem2.format⟩
      else ⟨db, true, .err 500⟩
  | _, _ => ⟨db, false, .err 404⟩

/-! ### Error envelopes -/

/-- The registered `errorhandler`s: the uniform JSON envelope
`{"error": code, "message": text}`.  The message depends only on the status
code, never on the underlying exception. -/
def errorEnvelope (status : Nat) : Option (Nat × String) :=
  if status == 400 then some (400, "bad request")
  else if status == 404 then some (404, "resource not found")
  else if status == 422 then some (422, "unprocessable entity")
  else if status == 500 then some (500, "internal server error")
  else none

/-! ### Configuration (`config.py`) -/

/-- Python's `str.replace(old, new, 1)`: replace the first occurrence of
`old` (scanning left to right) by `new`. -/
def replaceFirstChars (old new : List Char) : List Char → List Char
  | [] => []
  | c :: rest =>
    if old.isPrefixOf (c :: rest) then new ++ (c :: rest).drop old.length
    else c :: replaceFirstChars old new rest

/-- Python's `str.replace("://", "ql://", 1)` on a string. -/
def replaceFirst (s old new : String) : String :=
  ⟨replaceFirstChars old.data new.data s.data⟩

/-- The `Config` class of `config.py`: `env.get('DATABASE_URL')` returns
`None` when absent, so `.replace` raises and the `except` arm falls back to
`LOCAL_DATABASE_URL`; when present, the first `"://"` is rewritten to
`"ql://"`. -/
def resolveDatabaseUri (databaseUrl localDatabaseUrl : Option String) : Option String :=
  match databaseUrl with
  | some url => some (replaceFirst url "://" "ql://")
  | none => localDatabaseUrl

/-! ### Helper lemmas -/

lemma String.data_append_eq (a b : String) : (a ++ b).data = a.data ++ b.data := rfl

lemma find?_poem_id {l : List Poem} {pid : Nat} {q : Poem}
    (h : l.find? (fun p => p.id == pid) = some q) : q.id = pid := by
  have := List.find?_some h
  simpa using this

/-- Concrete sample rows used by the closed witness statements. -/
def tagHaiku : Tag := ⟨10, "haiku"⟩

def poemOde : Poem := ⟨1, "ode", 5, [tagHaiku]⟩

def dbSample : DB := ⟨[poemOde], [tagHaiku], 11⟩

def dbNumericTag : DB := ⟨[⟨1, "ode", 5, [⟨10, "7"⟩]⟩], [⟨10, "7"⟩], 11⟩

/-- Claim C7: with `DATABASE_URL` present, the resolved connection string is
that URL with its first `"://"` replaced by `"ql://"` (so `postgres://...`
becomes `postgresql://...` with the remainder unchanged); with it absent,
the resolution falls back to `LOCAL_DATABASE_URL`. -/
theorem c7_database_url_normalization :
    (∀ rest localUrl,
      resolveDatabaseUri (some ("postgres://" ++ rest)) localUrl
        = some ("postgresql://" ++ rest)) ∧
    (∀ localUrl, resolveDatabaseUri none localUrl = localUrl) := by
  constructor
  · intro rest localUrl
    show some (replaceFirst ("postgres://" ++ rest) "://" "ql://") = _
    congr 1
    apply String.ext
    show replaceFirstChars "://".data "ql://".data ("postgres://" ++ rest).data
        = ("postgresql://" ++ rest).data
    have h1 : ("postgres://" ++ rest).data
        = 'p' :: 'o' :: 's' :: 't' :: 'g' :: 'r' :: 'e' :: 's' ::
          ':' :: '/' :: '/' :: rest.data := rfl
    have h2 : ("postgresql://" ++ rest).data
        = 'p' :: 'o' :: 's' :: 't' :: 'g' :: 'r' :: 'e' :: 's' ::
          'q' :: 'l' :: ':' :: '/' :: '/' :: rest.data := rfl
    rw [h1, h2]
    simp [replaceFirstChars, List.isPrefixOf]
  · intro localUrl
    rfl

/-- Claim C10: with zero poems stored, `GET /poems` answers 200 with an empty
poems list, while the rating-filter route `GET /poems/<rating>` answers 404
on its empty result. -/
theorem c10_empty_poems_list :
    ∀ (tagRows : List Tag) (nextTagId : Nat) (rating : Int),
      get_poems ⟨[], tagRows, nextTagId⟩ = .ok [] ∧
      get_poems_by_id ⟨[], tagRows, nextTagId⟩ rating = .err 404 := by
  intro tagRows nextTagId rating
  exact ⟨rfl, rfl⟩

/-- Claim C3, counterexample: the claim says `POST /write-poem` never aborts
with 422; but a body carrying only `topic` (so missing `adjectives`) is
rejected with 422 — the guard `not ('topic' and 'adjectives') in r` tests
membership of `'adjectives'`, which does depend on the body's keys. -/
theorem c3_counterexample :
    post_write_poem [("topic", JVal.vStr "love")] = .err 422 := by
  decide

/-- Claim C3 (amended): the validation condition reduces to a membership
test of the single key `adjectives` (`'topic' and 'adjectives'` evaluates to
`'adjectives'`): the route aborts 422 exactly when `adjectives` is absent
from the body's keys, and never inspects `topic` — a body carrying
`adjectives` is accepted no matter what else it lacks. -/
theorem c3_adjectives_only_check (r : Body) :
    (post_write_poem r = .err 422 ↔ ∀ kv ∈ r, kv.1 ≠ "adjectives") ∧
    (∀ v : JVal, post_write_poem (("adjectives", v) :: r) = .ok ()) := by
  constructor
  · unfold post_write_poem
    cases h : r.any (fun kv => kv.1 == "adjectives") with
    | false =>
      simp only [h, Bool.not_false, if_pos]
      simp only [List.any_eq_false, beq_iff_eq] at h
      simpa using h
    | true =>
      simp only [h, Bool.not_true, if_neg, Bool.false_eq_true, not_false_eq_true]
      simp only [List.any_eq_true, beq_iff_eq] at h
      obtain ⟨kv, hmem, hkey⟩ := h
      constructor
      · intro hcontra
        cases hcontra
      · intro hall
        exact absurd hkey (hall kv hmem)
  · intro v
    simp [post_write_poem]

/-- Closed witness for the amended C3 theorem at a concrete body missing
`adjectives`. -/
theorem c3_adjectives_only_check_witness :
    post_write_poem [("topic", JVal.vStr "war")] = .err 422 :=
  (c3_adjectives_only_check [("topic", JVal.vStr "war")]).1.mpr (by decide)

/-- Claim C1: `PATCH /poem/<poem_id>` answers 422 whenever the body is
absent, empty, or holds a key outside `{name, rating, tags}` — for every
database state, so in particular whether or not a poem with that id exists
(the key validation precedes the existence lookup and nothing is mutated). -/
theorem c1_patch_body_validation (db : DB) (pid : Nat) (r : Option Body) (commitOk : Bool)
    (h : r = none ∨ r = some [] ∨
      ∃ kvs, r = some kvs ∧ ∃ kv ∈ kvs, kv.1 ∉ allowedKeys) :
    patch_poem db pid r commitOk = ⟨db, false, .err 422⟩ := by
  have hrej : bodyRejected r = true := by
    rcases h with h | h | ⟨kvs, hkvs, kv, hmem, hkey⟩
    · rw [h]; rfl
    · rw [h]; rfl
    · rw [hkvs]
      have hall : kvs.all (fun kv2 => allowedKeys.contains kv2.1) = false := by
        rw [List.all_eq_false]
        exact ⟨kv, hmem, by simpa using hkey⟩
      show (kvs.isEmpty || !(kvs.all fun kv2 => allowedKeys.contains kv2.1)) = true
      rw [hall]
      simp
  simp [patch_poem, hrej]

/-- Closed witness for C1: a body with the disallowed key `foo`, aimed at a
database where the target poem does exist. -/
theorem c1_patch_body_validation_witness :
    patch_poem dbSample 1 (some [("foo", JVal.vStr "bar")]) true
      = ⟨dbSample, false, .err 422⟩ :=
  c1_patch_body_validation dbSample 1 (some [("foo", JVal.vStr "bar")]) true
    (Or.inr (Or.inr ⟨[("foo", JVal.vStr "bar")], rfl,
      ("foo", JVal.vStr "bar"), by decide, by decide⟩))

/-- Claim C4: `GET /poems/<rating>` returns exactly the formatted poems with
that rating when at least one matches, and aborts 404 — not an empty list —
when none matches. -/
theorem c4_rating_filter (db : DB) (rating : Int) :
    ((∃ p ∈ db.poems, p.rating = rating) →
      ∃ l, get_poems_by_id db rating = .ok l ∧
        ∀ fp, fp ∈ l ↔ ∃ p ∈ db.poems, p.rating = rating ∧ p.format = fp) ∧
    ((∀ p ∈ db.poems, p.rating ≠ rating) →
      get_poems_by_id db rating = .err 404) := by
  constructor
  · rintro ⟨p, hp, hr⟩
    have hne : db.poems.filter (fun q => q.rating == rating) ≠ [] := by
      intro hnil
      have := List.filter_eq_nil_iff.mp hnil p hp
      simp [hr] at this
    refine ⟨(db.poems.filter (fun q => q.rating == rating)).map Poem.format, ?_, ?_⟩
    · unfold get_poems_by_id
      rw [if_neg]
      simp [List.isEmpty_iff, hne]
    · intro fp
      simp only [List.mem_map, List.mem_filter, beq_iff_eq]
      constructor
      · rintro ⟨q, ⟨hq, hqr⟩, hfmt⟩
        exact ⟨q, hq, hqr, hfmt⟩
      · rintro ⟨q, hq, hqr, hfmt⟩
        exact ⟨q, ⟨hq, hqr⟩, hfmt⟩
  · intro hall
    have hnil : db.poems.filter (fun q => q.rating == rating) = [] := by
      rw [List.filter_eq_nil_iff]
      intro q hq
      simpa using hall q hq
    unfold get_poems_by_id
    rw [if_pos]
    rw [hnil]
    rfl

/-- Closed witness for C4: one database where rating 5 matches and one where
rating 7 matches nothing. -/
theorem c4_rating_filter_witness :
    (∃ l, get_poems_by_id dbSample 5 = .ok l ∧
      ∀ fp, fp ∈ l ↔ ∃ p ∈ dbSample.poems, p.rating = 5 ∧ p.format = fp) ∧
    get_poems_by_id dbSample 7 = .err 404 :=
  ⟨(c4_rating_filter dbSample 5).1 ⟨poemOde, by decide, by decide⟩,
   (c4_rating_filter dbSample 7).2 (by decide)⟩

/-- Claim C9: a path segment that parses as a decimal integer is dispatched
to the `int`-converter rules: `GET /poems/<x>` runs the rating filter and
`GET /poem/<x>` runs the id lookup, never the name-based handlers; in
particular the response for a numeric segment is independent of the Tag
table, so a Tag whose name is a purely numeric string can never be
retrieved through `GET /poems/<tag_name>`. -/
theorem c9_numeric_dispatch (db : DB) (s : String) (h : isIntSegment s = true) :
    dispatchPoemsSegment db s = get_poems_by_id db (digitsToNat s) ∧
    dispatchPoemSegment db s = get_poem_by_id db (digitsToNat s) ∧
    ∀ tagRows2, dispatchPoemsSegment ⟨db.poems, tagRows2, db.nextTagId⟩ s
        = dispatchPoemsSegment db s := by
  refine ⟨by simp [dispatchPoemsSegment, h], by simp [dispatchPoemSegment, h], ?_⟩
  intro tagRows2
  simp [dispatchPoemsSegment, h, get_poems_by_id]

/-- Closed witness for C9: the segment `"7"` on a database holding a tag
named `"7"` with an associated poem; the dispatch still runs the rating
filter, which finds no poem rated 7 and answers 404 — the numeric-named tag
is unreachable. -/
theorem c9_numeric_dispatch_witness :
    dispatchPoemsSegment dbNumericTag "7" = get_poems_by_id dbNumericTag (digitsToNat "7") ∧
    dispatchPoemSegment dbNumericTag "7" = get_poem_by_id dbNumericTag (digitsToNat "7") ∧
    dispatchPoemsSegment dbNumericTag "7" = .err 404 ∧
    get_poems_by_tag dbNumericTag "7" ≠ .err 404 :=
  ⟨(c9_numeric_dispatch dbNumericTag "7" rfl).1,
   (c9_numeric_dispatch dbNumericTag "7" rfl).2.1,
   ((c9_numeric_dispatch dbNumericTag "7" rfl).1).trans (by decide),
   by decide⟩

/-! ### Lemmas about the list manipulations the mutating handlers perform -/
/-! ### Lemmas about the list manipulations the mutating handlers perform -/

lemma findPoem_map_update (l : List Poem) (pid : Nat) (q f : Poem)
    (h : l.find? (fun x => x.id == pid) = some q) (hf : f.id = pid) :
    (l.map (fun x => if x.id == pid then f else x)).find? (fun x => x.id == pid)
      = some f := by
  induction l with
  | nil => simp at h
  | cons a tl ih =>
    by_cases ha : (a.id == pid) = true
    · simp only [List.map_cons, if_pos ha]
      have hfp : (fun x => x.id == pid) f = true := by simp [hf]
      exact List.find?_cons_of_pos _ hfp
    · have hap : ¬((fun x => x.id == pid) a = true) := by simpa using ha
      rw [List.find?_cons_of_neg (p := fun (x : Poem) => x.id == pid) _ hap] at h
      simp only [List.map_cons, if_neg ha]
      rw [List.find?_cons_of_neg (p := fun (x : Poem) => x.id == pid) _ hap]
      exact ih h

lemma mem_map_update (l : List Poem) (pid : Nat) (f : Poem) (q : Poem)
    (hq : q ∈ l) (hne : q.id ≠ pid) :
    q ∈ l.map (fun x => if x.id == pid then f else x) :=
  List.mem_map.mpr ⟨q, hq, if_neg (by simpa using hne)⟩

lemma find?_eraseP_of_nodup (l : List Poem) (pid : Nat)
    (hnd : (l.map Poem.id).Nodup) :
    (l.eraseP (fun x => x.id == pid)).find? (fun x => x.id == pid) = none := by
  induction l with
  | nil => rfl
  | cons a tl ih =>
    simp only [List.map_cons, List.nodup_cons] at hnd
    obtain ⟨hida, hndtl⟩ := hnd
    by_cases ha : (a.id == pid) = true
    · have hap : (fun x => x.id == pid) a = true := ha
      rw [List.eraseP_cons_of_pos (p := fun (x : Poem) => x.id == pid) hap]
      rw [List.find?_eq_none]
      intro w hw
      have hne : w.id ≠ a.id := by
        intro heq
        exact hida (heq ▸ List.mem_map_of_mem Poem.id hw)
      simp only [beq_iff_eq] at ha ⊢
      rw [ha] at hne
      simpa using hne
    · have hap : ¬((fun x => x.id == pid) a = true) := by simpa using ha
      rw [List.eraseP_cons_of_neg (p := fun (x : Poem) => x.id == pid) hap]
      rw [List.find?_cons_of_neg (p := fun (x : Poem) => x.id == pid) _ hap]
      exact ih hndtl

lemma eraseP_length_of_exists {α : Type} (p : α → Bool) (l : List α)
    (hx : ∃ x ∈ l, p x = true) : (l.eraseP p).length + 1 = l.length := by
  induction l with
  | nil => simp at hx
  | cons a tl ih =>
    by_cases ha : p a = true
    · rw [List.eraseP_cons_of_pos ha]
      simp
    · rw [List.eraseP_cons_of_neg (by simpa using ha)]
      obtain ⟨x, hx1, hx2⟩ := hx
      rcases List.mem_cons.mp hx1 with rfl | hx1t
      · exact absurd hx2 (by simpa using ha)
      · simp only [List.length_cons]
        rw [← ih ⟨x, hx1t, hx2⟩]

lemma mem_eraseP_of_pred_false {α : Type} (p : α → Bool) (l : List α) (a : α)
    (ha : p a = false) : a ∈ l.eraseP p ↔ a ∈ l := by
  induction l with
  | nil => simp
  | cons b tl ih =>
    by_cases hb : p b = true
    · rw [List.eraseP_cons_of_pos hb]
      simp only [List.mem_cons]
      constructor
      · exact Or.inr
      · rintro (rfl | h)
        · rw [hb] at ha; cases ha
        · exact h
    · rw [List.eraseP_cons_of_neg (by simpa using hb)]
      simp only [List.mem_cons, ih]

lemma mkNewTags_map_name (s : Nat) (ns : List String) :
    (mkNewTags s ns).map Tag.name = ns := by
  induction ns generalizing s with
  | nil => rfl
  | cons n rest ih => simp [mkNewTags, ih]

lemma mkNewTags_id_bounds (s : Nat) (ns : List String) :
    ∀ t ∈ mkNewTags s ns, s ≤ t.id ∧ t.id < s + ns.length := by
  induction ns generalizing s with
  | nil => simp [mkNewTags]
  | cons n rest ih =>
    intro t ht
    rcases List.mem_cons.mp ht with rfl | ht2
    · simp
    · have := ih (s + 1) t ht2
      simp only [List.length_cons]
      omega

lemma stagePatch_full (db : DB) (poem : Poem) (nm : String) (rt : Int)
    (names : List String) :
    stagePatch db poem
        [("name", JVal.vStr nm), ("rating", JVal.vInt rt), ("tags", JVal.vTags names)]
      = some (⟨db.poems, db.tagRows ++ mkNewTags db.nextTagId names,
                db.nextTagId + names.length⟩,
              ⟨poem.id, nm, rt, poem.tags ++ mkNewTags db.nextTagId names⟩) := rfl

lemma patch_poem_full (db : DB) (pid : Nat) (poem : Poem) (nm : String) (rt : Int)
    (names : List String) (hfind : findPoem db pid = some poem) :
    patch_poem db pid
        (some [("name", JVal.vStr nm), ("rating", JVal.vInt rt),
               ("tags", JVal.vTags names)]) true
      = ⟨⟨db.poems.map (fun x => if x.id == pid then
            (⟨poem.id, nm, rt, poem.tags ++ mkNewTags db.nextTagId names⟩ : Poem) else x),
          db.tagRows ++ mkNewTags db.nextTagId names, db.nextTagId + names.length⟩,
         true,
         .ok (Poem.format ⟨poem.id, nm, rt, poem.tags ++ mkNewTags db.nextTagId names⟩)⟩ := by
  have hrej : bodyRejected
      (some [("name", JVal.vStr nm), ("rating", JVal.vInt rt),
             ("tags", JVal.vTags names)]) = false := rfl
  unfold patch_poem
  rw [hrej]
  simp only [Bool.false_eq_true, if_false, hfind, Option.getD_some, stagePatch_full,
    if_true]

/-- Claim C2: patching an existing poem with `tags` (plus the other allowed
keys) appends one brand-new Tag row per listed name to the poem's tag
relationship — never reusing an existing row, so the fresh rows' ids differ
from every pre-existing Tag row — pops `tags` from the update keys, and
applies the remaining allowed keys as direct field replacements; repeating
the identical patch appends the same names again, yielding duplicate
same-named associations. -/
theorem c2_tag_append (db : DB) (pid : Nat) (poem : Poem) (nm : String) (rt : Int)
    (names : List String)
    (hfind : findPoem db pid = some poem)
    (hwf : ∀ t ∈ db.tagRows, t.id < db.nextTagId) :
    ∃ poem2 : Poem,
      (patch_poem db pid (some [("name", JVal.vStr nm), ("rating", JVal.vInt rt),
          ("tags", JVal.vTags names)]) true).result = .ok poem2.format ∧
      (patch_poem db pid (some [("name", JVal.vStr nm), ("rating", JVal.vInt rt),
          ("tags", JVal.vTags names)]) true).sessionClosed = true ∧
      findPoem (patch_poem db pid (some [("name", JVal.vStr nm), ("rating", JVal.vInt rt),
          ("tags", JVal.vTags names)]) true).db pid = some poem2 ∧
      poem2.name = nm ∧ poem2.rating = rt ∧
      poem2.tags.take poem.tags.length = poem.tags ∧
      poem2.tags.map Tag.name = poem.tags.map Tag.name ++ names ∧
      (∀ t2 ∈ poem2.tags.drop poem.tags.length, ∀ t0 ∈ db.tagRows, t2.id ≠ t0.id) ∧
      ∃ poem3 : Poem,
        (patch_poem (patch_poem db pid (some [("name", JVal.vStr nm),
            ("rating", JVal.vInt rt), ("tags", JVal.vTags names)]) true).db pid
          (some [("name", JVal.vStr nm), ("rating", JVal.vInt rt),
            ("tags", JVal.vTags names)]) true).result = .ok poem3.format ∧
        poem3.tags.map Tag.name = (poem.tags.map Tag.name ++ names) ++ names := by
  have hid : poem.id = pid := find?_poem_id hfind
  have h1 := patch_poem_full db pid poem nm rt names hfind
  refine ⟨⟨poem.id, nm, rt, poem.tags ++ mkNewTags db.nextTagId names⟩,
    by rw [h1], by rw [h1], ?_, rfl, rfl, List.take_left poem.tags _, ?_, ?_, ?_⟩
  · rw [h1]
    exact findPoem_map_update db.poems pid poem _ hfind hid
  · simp [mkNewTags_map_name]
  · intro t2 ht2 t0 ht0
    rw [List.drop_left] at ht2
    have hb := mkNewTags_id_bounds db.nextTagId names t2 ht2
    have h0 := hwf t0 ht0
    omega
  · have hfind2 : findPoem (patch_poem db pid (some [("name", JVal.vStr nm),
        ("rating", JVal.vInt rt), ("tags", JVal.vTags names)]) true).db pid
        = some ⟨poem.id, nm, rt, poem.tags ++ mkNewTags db.nextTagId names⟩ := by
      rw [h1]
      exact findPoem_map_update db.poems pid poem _ hfind hid
    have h2 := patch_poem_full _ pid
      ⟨poem.id, nm, rt, poem.tags ++ mkNewTags db.nextTagId names⟩ nm rt names hfind2
    refine ⟨_, by rw [h2], ?_⟩
    simp [mkNewTags_map_name]

/-- Closed witness for C2 on the sample database: patching poem 1 with
`{"name": "new", "rating": 9, "tags": ["a"]}` succeeds and the poem's tag
names become `["haiku", "a"]`. -/
theorem c2_tag_append_witness :
    ∃ poem2 : Poem,
      (patch_poem dbSample 1 (some [("name", JVal.vStr "new"), ("rating", JVal.vInt 9),
          ("tags", JVal.vTags ["a"])]) true).result = .ok poem2.format ∧
      poem2.tags.map Tag.name = ["haiku", "a"] := by
  obtain ⟨poem2, hres, hsess, hfind2, hname, hrating, htake, hmap, hfresh, hsecond⟩ :=
    c2_tag_append dbSample 1 poemOde "new" 9 ["a"] (by decide) (by decide)
  exact ⟨poem2, hres, hmap.trans (by decide)⟩

/-- A sample database whose tag row exists but is not attached to its poem. -/
def dbUnattached : DB := ⟨[⟨2, "elegy", 3, []⟩], [tagHaiku], 11⟩

lemma delete_tag_success (db : DB) (pid : Nat) (tagName : String) (poem : Poem) (t : Tag)
    (hp : findPoem db pid = some poem) (ht : findTagByName db tagName = some t)
    (ha : tagAssociated poem t = true) :
    delete_tag_from_poem db pid tagName true
      = ⟨⟨db.poems.map (fun x => if x.id == pid then
            ({ poem with tags := poem.tags.eraseP (fun t2 => t2.id == t.id) } : Poem) else x),
          db.tagRows, db.nextTagId⟩, true,
         .ok (Poem.format { poem with tags := poem.tags.eraseP (fun t2 => t2.id == t.id) })⟩ := by
  unfold delete_tag_from_poem
  rw [hp, ht]
  simp [ha]

/-- Claim C5: `DELETE /poem/<poem_id>/<tag_name>` answers 404 and changes
nothing when the poem is absent, the tag name is absent, or the two are not
associated; when both exist and are associated (and the commit succeeds) it
removes exactly one association from the poem — every other tag of the poem
and every other poem survive — while the Tag row itself persists, and the
formatted poem is returned. -/
theorem c5_delete_tag (db : DB) (pid : Nat) (tagName : String) (commitOk : Bool) :
    (findPoem db pid = none →
      delete_tag_from_poem db pid tagName commitOk = ⟨db, false, .err 404⟩) ∧
    (findTagByName db tagName = none →
      delete_tag_from_poem db pid tagName commitOk = ⟨db, false, .err 404⟩) ∧
    (∀ poem t, findPoem db pid = some poem → findTagByName db tagName = some t →
      tagAssociated poem t = false →
      delete_tag_from_poem db pid tagName commitOk = ⟨db, false, .err 404⟩) ∧
    (∀ poem t, findPoem db pid = some poem → findTagByName db tagName = some t →
      tagAssociated poem t = true →
      ∃ poem2 : Poem,
        delete_tag_from_poem db pid tagName true
          = ⟨⟨db.poems.map (fun x => if x.id == pid then poem2 else x),
              db.tagRows, db.nextTagId⟩, true, .ok poem2.format⟩ ∧
        findPoem (delete_tag_from_poem db pid tagName true).db pid = some poem2 ∧
        poem2.tags.length + 1 = poem.tags.length ∧
        (∀ t2 : Tag, t2.id ≠ t.id → (t2 ∈ poem2.tags ↔ t2 ∈ poem.tags)) ∧
        (delete_tag_from_poem db pid tagName true).db.tagRows = db.tagRows ∧
        t ∈ (delete_tag_from_poem db pid tagName true).db.tagRows ∧
        (∀ q ∈ db.poems, q.id ≠ pid →
          q ∈ (delete_tag_from_poem db pid tagName true).db.poems)) := by
  refine ⟨?_, ?_, ?_, ?_⟩
  · intro hp
    cases hT : findTagByName db tagName with
    | none => simp [delete_tag_from_poem, hp, hT]
    | some t => simp [delete_tag_from_poem, hp, hT]
  · intro hT
    cases hp : findPoem db pid with
    | none => simp [delete_tag_from_poem, hp, hT]
    | some poem => simp [delete_tag_from_poem, hp, hT]
  · intro poem t hp ht ha
    unfold delete_tag_from_poem
    rw [hp, ht]
    simp [ha]
  · intro poem t hp ht ha
    have hid : poem.id = pid := find?_poem_id hp
    have heq := delete_tag_success db pid tagName poem t hp ht ha
    refine ⟨{ poem with tags := poem.tags.eraseP (fun t2 => t2.id == t.id) },
      heq, ?_, ?_, ?_, ?_, ?_, ?_⟩
    · rw [heq]
      exact findPoem_map_update db.poems pid poem _ hp hid
    · apply eraseP_length_of_exists
      simpa [tagAssociated, List.any_eq_true] using ha
    · intro t2 hne
      exact mem_eraseP_of_pred_false _ _ _ (by simpa using hne)
    · rw [heq]
    · rw [heq]
      exact List.mem_of_find?_eq_some ht
    · intro q hq hne
      rw [heq]
      exact mem_map_update db.poems pid _ q hq hne

/-- Closed witness for C5: detaching `"haiku"` from poem 1 of the sample
database removes the one association while keeping the Tag row, and the
same request on a database where the tag exists unattached answers 404. -/
theorem c5_delete_tag_witness :
    (∃ poem2 : Poem,
      delete_tag_from_poem dbSample 1 "haiku" true
        = ⟨⟨dbSample.poems.map (fun x => if x.id == 1 then poem2 else x),
            dbSample.tagRows, dbSample.nextTagId⟩, true, .ok poem2.format⟩ ∧
      poem2.tags.length + 1 = poemOde.tags.length ∧
      tagHaiku ∈ (delete_tag_from_poem dbSample 1 "haiku" true).db.tagRows) ∧
    delete_tag_from_poem dbUnattached 2 "haiku" true = ⟨dbUnattached, false, .err 404⟩ := by
  obtain ⟨poem2, heq, hfind2, hlen, hmem, hrows, htmem, hothers⟩ :=
    (c5_delete_tag dbSample 1 "haiku" true).2.2.2 poemOde tagHaiku
      (by decide) (by decide) (by decide)
  exact ⟨⟨poem2, heq, hlen, htmem⟩,
    (c5_delete_tag dbUnattached 2 "haiku" true).2.2.1 ⟨2, "elegy", 3, []⟩ tagHaiku
      (by decide) (by decide) (by decide)⟩

/-- Claim C6: when the commit (or staging) of a mutating route fails, the
route rolls the transaction back — the database is exactly as before — runs
`db.session.close()` regardless, and answers 500 with the generic envelope,
whose text depends only on the status code, never on the exception. -/
theorem c6_failure_isolation (db : DB) (pid : Nat) (tagName : String) (r : Option Body) :
    (bodyRejected r = false → (∃ poem, findPoem db pid = some poem) →
      patch_poem db pid r false = ⟨db, true, .err 500⟩) ∧
    ((∃ poem, findPoem db pid = some poem) →
      delete_poem db pid false = ⟨db, true, .err 500⟩) ∧
    (∀ poem t, findPoem db pid = some poem → findTagByName db tagName = some t →
      tagAssociated poem t = true →
      delete_tag_from_poem db pid tagName false = ⟨db, true, .err 500⟩) ∧
    (∀ poem commitOk2, bodyRejected r = false → findPoem db pid = some poem →
      stagePatch db poem (r.getD []) = none →
      patch_poem db pid r commitOk2 = ⟨db, true, .err 500⟩) ∧
    errorEnvelope 500 = some (500, "internal server error") := by
  refine ⟨?_, ?_, ?_, ?_, rfl⟩
  · rintro hrej ⟨poem, hp⟩
    unfold patch_poem
    rw [hrej]
    simp only [Bool.false_eq_true, if_false, hp]
    cases hs : stagePatch db poem (r.getD []) with
    | none => rfl
    | some pr => simp
  · rintro ⟨poem, hp⟩
    unfold delete_poem
    rw [hp]
    simp
  · intro poem t hp ht ha
    unfold delete_tag_from_poem
    rw [hp, ht]
    simp [ha]
  · intro poem commitOk2 hrej hp hs
    unfold patch_poem
    rw [hrej]
    simp only [Bool.false_eq_true, if_false, hp, hs]

/-- Closed witness for C6: each mutating route on the sample database with a
failing commit — and a patch whose staging raises (`tags` bound to an
integer) — leaves it unchanged, closes the session and answers 500. -/
theorem c6_failure_isolation_witness :
    patch_poem dbSample 1 (some [("name", JVal.vStr "x")]) false
      = ⟨dbSample, true, .err 500⟩ ∧
    delete_poem dbSample 1 false = ⟨dbSample, true, .err 500⟩ ∧
    delete_tag_from_poem dbSample 1 "haiku" false = ⟨dbSample, true, .err 500⟩ ∧
    patch_poem dbSample 1 (some [("tags", JVal.vInt 3)]) true
      = ⟨dbSample, true, .err 500⟩ :=
  ⟨(c6_failure_isolation dbSample 1 "haiku" (some [("name", JVal.vStr "x")])).1
      (by decide) ⟨poemOde, by decide⟩,
   (c6_failure_isolation dbSample 1 "haiku" none).2.1 ⟨poemOde, by decide⟩,
   (c6_failure_isolation dbSample 1 "haiku" none).2.2.1 poemOde tagHaiku
      (by decide) (by decide) (by decide),
   (c6_failure_isolation dbSample 1 "haiku" (some [("tags", JVal.vInt 3)])).2.2.2.1
      poemOde true (by decide) (by decide) (by decide)⟩

/-- Claim C8: `DELETE /poem/<poem_id>` answers 404 when no poem has that id,
500 when the commit fails, and on success removes exactly that poem —
every other poem survives and the tag table is untouched — echoing
`{"deleted_poem_id": <id>}` back. -/
theorem c8_delete_poem (db : DB) (pid : Nat) (commitOk : Bool) :
    (findPoem db pid = none →
      delete_poem db pid commitOk = ⟨db, false, .err 404⟩) ∧
    ((∃ p, findPoem db pid = some p) →
      delete_poem db pid false = ⟨db, true, .err 500⟩) ∧
    ((db.poems.map Poem.id).Nodup → ∀ p, findPoem db pid = some p →
      ∃ db2 : DB, delete_poem db pid true = ⟨db2, true, .ok pid⟩ ∧
        findPoem db2 pid = none ∧
        db2.poems.Sublist db.poems ∧
        (∀ q ∈ db.poems, q.id ≠ pid → q ∈ db2.poems) ∧
        db2.tagRows = db.tagRows) := by
  refine ⟨?_, ?_, ?_⟩
  · intro hp
    simp [delete_poem, hp]
  · rintro ⟨p, hp⟩
    unfold delete_poem
    rw [hp]
    simp
  · intro hnd p hp
    refine ⟨⟨db.poems.eraseP (fun x => x.id == pid), db.tagRows, db.nextTagId⟩,
      ?_, ?_, ?_, ?_, rfl⟩
    · unfold delete_poem
      rw [hp]
      simp
    · exact find?_eraseP_of_nodup db.poems pid hnd
    · exact List.eraseP_sublist db.poems
    · intro q hq hne
      exact (mem_eraseP_of_pred_false _ _ _ (by simpa using hne)).mpr hq

/-- Closed witness for C8 on the sample database: deleting a missing id is
404, a failing commit is 500 with no change, and deleting poem 1 echoes the
id and leaves no poem with id 1 behind. -/
theorem c8_delete_poem_witness :
    delete_poem dbSample 2 true = ⟨dbSample, false, .err 404⟩ ∧
    delete_poem dbSample 1 false = ⟨dbSample, true, .err 500⟩ ∧
    ∃ db2 : DB, delete_poem dbSample 1 true = ⟨db2, true, .ok 1⟩ ∧
      findPoem db2 1 = none := by
  obtain ⟨db2, heq, hnone, hsub, hmem, hrows⟩ :=
    (c8_delete_poem dbSample 1 true).2.2 (by decide) poemOde (by decide)
  exact ⟨(c8_delete_poem dbSample 2 true).1 (by decide),
    (c8_delete_poem dbSample 1 false).2.1 ⟨poemOde, by decide⟩,
    db2, heq, hnone⟩
